import Mathlib

/-!
# User repository of mindful-insights

A shallow embedding of `server/repository/repository.go`.

The MongoDB driver, `fmt`, `errors` and `time` are libraries outside the
repository.  The driver's answers and the wall clock are therefore inputs of
the model (`Env`); every repository operation returns, next to its Go return
values, the list of driver calls it issued, so that statements about "what is
handed to the driver" are statements about the operation itself.
-/

namespace repository

/-! ## Values -/

/-- Go `time.Time`, counted in nanoseconds from the zero instant `time.Time{}`. -/
structure Time where
  nanos : Int
deriving DecidableEq, Repr

/-- Modelled from the spec: the declaration of the struct `User` is not in
`repository.go`.  Its fields are the ones the composite literal in `CreateUser`
names (`FirstName`, `LastName`, `Email`, `Password`, `CreatedAt`); the spec's
data model gives the first four as text and the last as a timestamp. -/
structure User where
  FirstName : String
  LastName : String
  Email : String
  Password : String
  CreatedAt : Time
deriving DecidableEq, Repr

/-- The zero value `User{}`. -/
def User.zero : User :=
  { FirstName := "", LastName := "", Email := "", Password := "", CreatedAt := ⟨0⟩ }

/-- One entry of `WriteException.WriteErrors` (driver type `mongo.WriteError`). -/
structure WriteError where
  Code : Int
  Message : String
deriving DecidableEq, Repr

/-- Driver type `mongo.WriteException`; `msg` is the text its `Error()` renders. -/
structure WriteException where
  msg : String
  WriteErrors : List WriteError
deriving DecidableEq, Repr

/-- Go `error` values that can flow through the repository, by dynamic type.
* `ErrNoDocuments` is the sentinel `mongo.ErrNoDocuments`;
* `WriteException` is a `mongo.WriteException` value;
* `driverError` is any other error of the driver (no `Unwrap` method);
* `wrapError` is what `fmt.Errorf` builds for a format with one `%w`
  (rendered message and wrapped error);
* `DuplicatedError` is the repository's own `DuplicatedError{err}`. -/
inductive GoError where
  | ErrNoDocuments
  | WriteException (e : WriteException)
  | driverError (msg : String)
  | wrapError (msg : String) (err : GoError)
  | DuplicatedError (err : GoError)
deriving DecidableEq, Repr

/-- The method `Error()` of each dynamic type; for `DuplicatedError` it is
`fmt.Sprintf("user found in doc: %s", d.err)`. -/
def GoError.Error : GoError → String
  | .ErrNoDocuments => "mongo: no documents in result"
  | .WriteException e => e.msg
  | .driverError msg => msg
  | .wrapError msg _ => msg
  | .DuplicatedError err => "user found in doc: " ++ err.Error

/-- The method `Unwrap()`, which only `fmt`'s wrapping error has
(`DuplicatedError` declares `Error()` alone). -/
def GoError.Unwrap : GoError → Option GoError
  | .wrapError _ err => some err
  | _ => none

/-- The call `fmt.Errorf(lead + "%w", err)`: the message is the literal text
followed by the message of `err`, and the result unwraps to `err`. -/
def Errorf (lead : String) (err : GoError) : GoError :=
  .wrapError (lead ++ err.Error) err

/-- The call `errors.As(err, &e)` for a target of type `mongo.WriteException`:
walk the `Unwrap` chain until an error of that dynamic type is found. -/
def errorsAs : GoError → Option WriteException
  | .WriteException e => some e
  | .wrapError _ err => errorsAs err
  | _ => none

/-! ## Driver handles and requests -/

/-- A connected `*mongo.Client`, identified by its connection string. -/
structure Client where
  uri : String
deriving DecidableEq, Repr

/-- A `*mongo.Database` handle: the client it was taken from and its name. -/
structure Database where
  client : Option Client
  name : String
deriving DecidableEq, Repr

/-- A `*mongo.Collection` handle: its database and its name. -/
structure Collection where
  database : Database
  name : String
deriving DecidableEq, Repr

/-- One element `bson.E` of a `bson.D` filter. -/
structure bsonE where
  Key : String
  Value : String
deriving DecidableEq, Repr

/-- The builder `options.IndexOptions`, restricted to the two settings used;
`none` is a setting left unset. -/
structure IndexOptions where
  Name : Option String
  Unique : Option Bool
deriving DecidableEq, Repr

/-- The call `options.Index()`. -/
def optionsIndex : IndexOptions :=
  { Name := none, Unique := none }

/-- The method `SetName`. -/
def IndexOptions.SetName (o : IndexOptions) (name : String) : IndexOptions :=
  { o with Name := some name }

/-- The method `SetUnique`. -/
def IndexOptions.SetUnique (o : IndexOptions) (unique : Bool) : IndexOptions :=
  { o with Unique := some unique }

/-- Driver type `mongo.IndexModel`; `Keys` is a `bsonx.Doc` of integer-valued elements. -/
structure IndexModel where
  Keys : List (String × Int)
  Options : IndexOptions
deriving DecidableEq, Repr

/-- A `clockwork.Clock`, given by what its `Now()` reports. -/
structure Clock where
  Now : Time
deriving DecidableEq, Repr

/-- A call that reaches the driver, with its receiver and argument. -/
inductive DriverCall where
  | Connect (uri : String)
  | CreateOne (coll : Option Collection) (mod : IndexModel)
  | InsertOne (coll : Option Collection) (document : User)
  | FindOne (coll : Option Collection) (filter : List bsonE)
deriving DecidableEq, Repr

/-- The surroundings of one repository call: what the driver answers to each
request and what `time.Now()` reads. -/
structure Env where
  mongoConnect : String → Except GoError Client
  CreateOne : Option Collection → IndexModel → Option GoError
  InsertOne : Option Collection → User → Option GoError
  FindOneDecode : Option Collection → List bsonE → Except GoError User
  timeNow : Time

/-- The outcome of an operation: the driver calls issued, in order, and the Go return value. -/
structure Run (α : Type) where
  calls : List DriverCall
  ret : α

/-! ## The repository -/

def emailAddressID : String := "email_address"

def dbName : String := "mindful-insights"

def user : String := "user"

/-- The struct `mongoRepo`; a nil pointer or nil interface field is `none`. -/
structure mongoRepo where
  client : Option Client
  clock : Option Clock
deriving DecidableEq, Repr

/-- The method `db`: `m.client.Database(dbName)`. -/
def mongoRepo.db (m : mongoRepo) : Database :=
  { client := m.client, name := dbName }

/-- The method `UserCollection`: the statement `m.db().Collection(user)` builds
the handle and drops it; the function then executes `return nil`. -/
def mongoRepo.UserCollection (m : mongoRepo) : Option Collection :=
  let _dropped : Collection := { database := m.db, name := user }
  none

/-- The method `ensureIndexes`. -/
def mongoRepo.ensureIndexes (m : mongoRepo) (env : Env) : Run (Option GoError) :=
  let mod : IndexModel :=
    { Keys := [(emailAddressID, 1)],
      Options := (optionsIndex.SetName emailAddressID).SetUnique false }
  let coll := m.UserCollection
  { calls := [DriverCall.CreateOne coll mod],
    ret :=
      match env.CreateOne coll mod with
      | some err => some (Errorf "failed to create index: " err)
      | none => none }

/-- The function `New`; the pair is the Go result `(*mongoRepo, error)`. -/
def New (env : Env) (uri : String) (clock : Option Clock) :
    Run (Option mongoRepo × Option GoError) :=
  match env.mongoConnect uri with
  | .error err =>
    { calls := [DriverCall.Connect uri],
      ret := (some { client := none, clock := none }, some (Errorf "db_error: " err)) }
  | .ok client =>
    let repo : mongoRepo := { client := some client, clock := clock }
    let r := repo.ensureIndexes env
    { calls := DriverCall.Connect uri :: r.calls,
      ret :=
        match r.ret with
        | some err => (none, some err)
        | none => (some repo, none) }

/-- The loop `for _, v := range e.WriteErrors` of `CreateUser`: return at the
first write error with code 11000, fall through when there is none. -/
def scanWriteErrors (err : GoError) : List WriteError → Option GoError
  | [] => none
  | v :: rest => if v.Code = 11000 then some (.DuplicatedError err) else scanWriteErrors err rest

/-- The method `CreateUser`. -/
def mongoRepo.CreateUser (m : mongoRepo) (env : Env) (user : User) : Run (Option GoError) :=
  let coll := m.UserCollection
  let document : User :=
    { FirstName := user.FirstName,
      LastName := user.LastName,
      Email := user.Email,
      Password := user.Password,
      CreatedAt := env.timeNow }
  { calls := [DriverCall.InsertOne coll document],
    ret :=
      match env.InsertOne coll document with
      | none => none
      | some err =>
        match errorsAs err with
        | some e => scanWriteErrors err e.WriteErrors
        | none => none }

/-- The method `GetUser`; the pair is the Go result `(User, error)`. -/
def mongoRepo.GetUser (m : mongoRepo) (env : Env) (emailAddress : String) :
    Run (User × Option GoError) :=
  let filter : List bsonE := [{ Key := emailAddressID, Value := emailAddress }]
  let coll := m.UserCollection
  { calls := [DriverCall.FindOne coll filter],
    ret :=
      match env.FindOneDecode coll filter with
      | .error err =>
        match err with
        | .ErrNoDocuments => (User.zero, none)
        | _ => (User.zero, some (Errorf "error finding user: " err))
      | .ok u =>
        let u := if u.Password ≠ "" then { u with Password := "" } else u
        (u, none) }

/-! ## Observations on a run and sample surroundings -/

/-- The documents handed to `InsertOne` during a run, in order. -/
def insertedDocuments : List DriverCall → List User
  | [] => []
  | DriverCall.InsertOne _ document :: rest => document :: insertedDocuments rest
  | _ :: rest => insertedDocuments rest

/-- Surroundings with fixed answers: `conn` for `mongo.Connect`, `idx` for
`CreateOne`, `ins` for `InsertOne`, `found` for `FindOne(...).Decode` and
`now` for `time.Now()`. -/
def scriptedEnv (conn : Except GoError Client) (idx ins : Option GoError)
    (found : Except GoError User) (now : Time) : Env :=
  { mongoConnect := fun _ => conn,
    CreateOne := fun _ _ => idx,
    InsertOne := fun _ _ => ins,
    FindOneDecode := fun _ _ => found,
    timeNow := now }

def sampleClient : Client := { uri := "mongodb://localhost:27017" }

/-- A stored user with a non-empty password. -/
def sampleUser : User :=
  { FirstName := "Ada", LastName := "Lovelace", Email := "ada@example.org",
    Password := "s3cret", CreatedAt := ⟨5⟩ }

/-- A repository holding a client and a fake clock frozen at instant 100. -/
def sampleRepo : mongoRepo :=
  { client := some sampleClient, clock := some { Now := ⟨100⟩ } }

/-- A duplicate-key write exception as the server reports it. -/
def duplicateKeyException : WriteException :=
  { msg := "write exception: E11000 duplicate key error",
    WriteErrors := [{ Code := 11000, Message := "E11000 duplicate key error" }] }

/-- A write exception without a duplicate-key entry (121: document validation failure). -/
def validationException : WriteException :=
  { msg := "write exception: document failed validation",
    WriteErrors := [{ Code := 121, Message := "document failed validation" }] }

/-- A healthy database in which every answer is a success; the wall clock reads 200. -/
def healthyEnv : Env :=
  scriptedEnv (.ok sampleClient) none none (.ok sampleUser) ⟨200⟩

/-! ## Lemmas -/

theorem UserCollection_eq_none (m : mongoRepo) : m.UserCollection = none := rfl

theorem scanWriteErrors_of_mem (err : GoError) (ws : List WriteError)
    (h : ∃ v ∈ ws, v.Code = 11000) :
    scanWriteErrors err ws = some (.DuplicatedError err) := by
  induction ws with
  | nil => simp at h
  | cons w rest ih =>
    by_cases hw : w.Code = 11000
    · simp [scanWriteErrors, hw]
    · have hrest : ∃ v ∈ rest, v.Code = 11000 := by
        obtain ⟨v, hv, hc⟩ := h
        rcases List.mem_cons.mp hv with rfl | hmem
        · exact absurd hc hw
        · exact ⟨v, hmem, hc⟩
      simp [scanWriteErrors, hw, ih hrest]

theorem scanWriteErrors_of_not_mem (err : GoError) (ws : List WriteError)
    (h : ∀ v ∈ ws, v.Code ≠ 11000) :
    scanWriteErrors err ws = none := by
  induction ws with
  | nil => rfl
  | cons w rest ih =>
    have hw : w.Code ≠ 11000 := h w (List.mem_cons_self _ _)
    have hrest : ∀ v ∈ rest, v.Code ≠ 11000 := fun v hv => h v (List.mem_cons_of_mem _ hv)
    simp [scanWriteErrors, hw, ih hrest]

theorem scanWriteErrors_eq_some (err : GoError) (ws : List WriteError) (r : GoError)
    (h : scanWriteErrors err ws = some r) :
    r = .DuplicatedError err ∧ ∃ v ∈ ws, v.Code = 11000 := by
  induction ws with
  | nil => simp [scanWriteErrors] at h
  | cons w rest ih =>
    by_cases hw : w.Code = 11000
    · simp [scanWriteErrors, hw] at h
      exact ⟨h.symm, w, List.mem_cons_self _ _, hw⟩
    · simp [scanWriteErrors, hw] at h
      obtain ⟨hr, v, hv, hc⟩ := ih h
      exact ⟨hr, v, List.mem_cons_of_mem _ hv, hc⟩

/-- A non-nil result of `CreateUser` is a `DuplicatedError` around the error of
the insert, and that error carries a write exception with a code 11000 entry. -/
theorem CreateUser_error_only_on_duplicate (m : mongoRepo) (env : Env) (user : User)
    (r : GoError) (h : (m.CreateUser env user).ret = some r) :
    ∃ err e, env.InsertOne m.UserCollection
        { FirstName := user.FirstName, LastName := user.LastName, Email := user.Email,
          Password := user.Password, CreatedAt := env.timeNow } = some err ∧
      errorsAs err = some e ∧ (∃ v ∈ e.WriteErrors, v.Code = 11000) ∧
      r = .DuplicatedError err := by
  simp only [mongoRepo.CreateUser] at h
  split at h
  · simp at h
  · next err hins =>
    split at h
    · next e he =>
      obtain ⟨hr, hv⟩ := scanWriteErrors_eq_some err e.WriteErrors r h
      exact ⟨err, e, hins, he, hv, hr⟩
    · simp at h

/-! ## GetUser -/

/-- C1: when the lookup finds and decodes a document `u`, `GetUser` returns a
nil error and a user whose `Password` is the empty string, whatever password
`u` holds; first name, last name, email and creation timestamp are those of `u`. -/
theorem GetUser_found_clears_password (m : mongoRepo) (env : Env) (emailAddress : String)
    (u : User)
    (h : env.FindOneDecode m.UserCollection
      [{ Key := emailAddressID, Value := emailAddress }] = .ok u) :
    (m.GetUser env emailAddress).ret =
      ({ FirstName := u.FirstName, LastName := u.LastName, Email := u.Email,
         Password := "", CreatedAt := u.CreatedAt }, none) := by
  obtain ⟨fn, ln, em, pw, ts⟩ := u
  simp only [mongoRepo.GetUser, h]
  by_cases hp : pw = ""
  · simp [hp]
  · simp [hp]

theorem GetUser_found_clears_password_witness :
    healthyEnv.FindOneDecode sampleRepo.UserCollection
        [{ Key := emailAddressID, Value := "ada@example.org" }] = .ok sampleUser ∧
      (sampleRepo.GetUser healthyEnv "ada@example.org").ret =
        ({ FirstName := "Ada", LastName := "Lovelace", Email := "ada@example.org",
           Password := "", CreatedAt := ⟨5⟩ }, none) :=
  ⟨rfl, GetUser_found_clears_password sampleRepo healthyEnv "ada@example.org" sampleUser rfl⟩

/-- C2: when the lookup reports `mongo.ErrNoDocuments`, `GetUser` returns the
zero-value `User` together with a nil error. -/
theorem GetUser_no_documents (m : mongoRepo) (env : Env) (emailAddress : String)
    (h : env.FindOneDecode m.UserCollection
      [{ Key := emailAddressID, Value := emailAddress }] = .error .ErrNoDocuments) :
    (m.GetUser env emailAddress).ret = (User.zero, none) := by
  simp only [mongoRepo.GetUser, h]

theorem GetUser_no_documents_witness :
    (scriptedEnv (.ok sampleClient) none none (.error .ErrNoDocuments) ⟨200⟩).FindOneDecode
        sampleRepo.UserCollection [{ Key := emailAddressID, Value := "nobody@example.org" }]
        = .error .ErrNoDocuments ∧
      (sampleRepo.GetUser (scriptedEnv (.ok sampleClient) none none (.error .ErrNoDocuments) ⟨200⟩)
        "nobody@example.org").ret
        = ({ FirstName := "", LastName := "", Email := "", Password := "", CreatedAt := ⟨0⟩ },
           none) :=
  ⟨rfl, GetUser_no_documents sampleRepo _ "nobody@example.org" rfl⟩

/-- C9: when the lookup fails with an error other than `mongo.ErrNoDocuments`,
`GetUser` returns the zero-value `User` and a non-nil error whose message is
"error finding user: " followed by the message of the failure and whose
`Unwrap` is the failure itself. -/
theorem GetUser_lookup_failure_wrapped (m : mongoRepo) (env : Env) (emailAddress : String)
    (err : GoError)
    (h : env.FindOneDecode m.UserCollection
      [{ Key := emailAddressID, Value := emailAddress }] = .error err)
    (hne : err ≠ .ErrNoDocuments) :
    ∃ e : GoError, (m.GetUser env emailAddress).ret = (User.zero, some e) ∧
      e.Error = "error finding user: " ++ err.Error ∧ e.Unwrap = some err := by
  refine ⟨Errorf "error finding user: " err, ?_, rfl, rfl⟩
  cases err with
  | ErrNoDocuments => exact absurd rfl hne
  | WriteException e => simp only [mongoRepo.GetUser, h]
  | driverError msg => simp only [mongoRepo.GetUser, h]
  | wrapError msg err => simp only [mongoRepo.GetUser, h]
  | DuplicatedError err => simp only [mongoRepo.GetUser, h]

theorem GetUser_lookup_failure_wrapped_witness :
    ∃ e : GoError,
      (sampleRepo.GetUser
        (scriptedEnv (.ok sampleClient) none none (.error (.driverError "context deadline exceeded"))
          ⟨200⟩) "ada@example.org").ret = (User.zero, some e) ∧
      e.Error = "error finding user: " ++ (GoError.driverError "context deadline exceeded").Error ∧
      e.Unwrap = some (.driverError "context deadline exceeded") :=
  GetUser_lookup_failure_wrapped sampleRepo _ "ada@example.org"
    (.driverError "context deadline exceeded") rfl (fun h => GoError.noConfusion h)

/-! ## CreateUser -/

/-- C3: when the insert fails with an error carrying a write exception that has
at least one write error with code 11000, `CreateUser` returns a
`DuplicatedError` whose cause is exactly the error returned by the insert. -/
theorem CreateUser_duplicate_key (m : mongoRepo) (env : Env) (user : User)
    (err : GoError) (e : WriteException)
    (hins : env.InsertOne m.UserCollection
      { FirstName := user.FirstName, LastName := user.LastName, Email := user.Email,
        Password := user.Password, CreatedAt := env.timeNow } = some err)
    (hexc : errorsAs err = some e)
    (hdup : ∃ v ∈ e.WriteErrors, v.Code = 11000) :
    (m.CreateUser env user).ret = some (.DuplicatedError err) := by
  simp only [mongoRepo.CreateUser, hins, hexc]
  exact scanWriteErrors_of_mem err e.WriteErrors hdup

theorem CreateUser_duplicate_key_witness :
    (sampleRepo.CreateUser
      (scriptedEnv (.ok sampleClient) none (some (.WriteException duplicateKeyException))
        (.ok sampleUser) ⟨200⟩) sampleUser).ret
      = some (.DuplicatedError (.WriteException duplicateKeyException)) :=
  CreateUser_duplicate_key sampleRepo _ sampleUser (.WriteException duplicateKeyException)
    duplicateKeyException rfl rfl
    ⟨{ Code := 11000, Message := "E11000 duplicate key error" }, List.mem_singleton.mpr rfl, rfl⟩

/-- C4: when the insert fails with an error that is not a duplicate-key
conflict (it carries no write exception, or it carries one none of whose write
errors has code 11000), `CreateUser` returns nil. -/
theorem CreateUser_swallows_other_failures (m : mongoRepo) (env : Env) (user : User)
    (err : GoError)
    (hins : env.InsertOne m.UserCollection
      { FirstName := user.FirstName, LastName := user.LastName, Email := user.Email,
        Password := user.Password, CreatedAt := env.timeNow } = some err)
    (hother : errorsAs err = none ∨
      ∃ e, errorsAs err = some e ∧ ∀ v ∈ e.WriteErrors, v.Code ≠ 11000) :
    (m.CreateUser env user).ret = none := by
  rcases hother with hnone | ⟨e, hexc, hcodes⟩
  · simp only [mongoRepo.CreateUser, hins, hnone]
  · simp only [mongoRepo.CreateUser, hins, hexc]
    exact scanWriteErrors_of_not_mem err e.WriteErrors hcodes

theorem CreateUser_swallows_other_failures_witness :
    (sampleRepo.CreateUser
        (scriptedEnv (.ok sampleClient) none (some (.driverError "connection reset"))
          (.ok sampleUser) ⟨200⟩) sampleUser).ret = none ∧
      (sampleRepo.CreateUser
        (scriptedEnv (.ok sampleClient) none (some (.WriteException validationException))
          (.ok sampleUser) ⟨200⟩) sampleUser).ret = none :=
  ⟨CreateUser_swallows_other_failures sampleRepo _ sampleUser (.driverError "connection reset")
      rfl (Or.inl rfl),
   CreateUser_swallows_other_failures sampleRepo _ sampleUser
      (.WriteException validationException) rfl
      (Or.inr ⟨validationException, rfl, by decide⟩)⟩

/-- C5 (the code departs from the claim): with a repository whose injected clock
is frozen at instant 100 and a wall clock reading 200, the document handed to
the insert is stamped 200, the reading of `time.Now()`, not the clock's 100. -/
theorem CreateUser_stamps_wall_clock :
    sampleRepo.clock = some { Now := ⟨100⟩ } ∧
      healthyEnv.timeNow = ⟨200⟩ ∧
      (insertedDocuments (sampleRepo.CreateUser healthyEnv sampleUser).calls).map
        (fun d => d.CreatedAt) = [⟨200⟩] ∧
      (insertedDocuments (sampleRepo.CreateUser healthyEnv sampleUser).calls).map
        (fun d => d.CreatedAt) ≠ [⟨100⟩] := by
  refine ⟨rfl, rfl, rfl, ?_⟩
  decide

/-- C8: the only driver call of `CreateUser` is one insert whose document has
the caller's first name, last name, email and password unchanged and the
reading of `time.Now()` as creation timestamp; replacing the caller-supplied
`CreatedAt` by any other value leaves that call the same. -/
theorem CreateUser_document_fields (m : mongoRepo) (env : Env) (user : User) :
    (m.CreateUser env user).calls =
        [DriverCall.InsertOne m.UserCollection
          { FirstName := user.FirstName, LastName := user.LastName, Email := user.Email,
            Password := user.Password, CreatedAt := env.timeNow }] ∧
      ∀ t : Time,
        (m.CreateUser env { user with CreatedAt := t }).calls = (m.CreateUser env user).calls :=
  ⟨rfl, fun _ => rfl⟩

/-! ## UserCollection, ensureIndexes and New -/

/-- C6 (the code departs from the claim): for a repository with a live client,
`UserCollection` returns nil, not the handle of collection `user` in database
`mindful-insights`; `ensureIndexes`, `CreateUser` and `GetUser` all call the
driver on that nil handle. -/
theorem UserCollection_returns_nil :
    sampleRepo.UserCollection = none ∧
      sampleRepo.UserCollection ≠
        some { database := { client := some sampleClient, name := "mindful-insights" },
               name := "user" } ∧
      (sampleRepo.ensureIndexes healthyEnv).calls =
        [DriverCall.CreateOne none
          { Keys := [("email_address", 1)],
            Options := { Name := some "email_address", Unique := some false } }] ∧
      (sampleRepo.CreateUser healthyEnv sampleUser).calls =
        [DriverCall.InsertOne none { sampleUser with CreatedAt := ⟨200⟩ }] ∧
      (sampleRepo.GetUser healthyEnv "ada@example.org").calls =
        [DriverCall.FindOne none [{ Key := "email_address", Value := "ada@example.org" }]] := by
  refine ⟨rfl, ?_, rfl, rfl, rfl⟩
  intro h
  exact Option.noConfusion h

/-- C10: `ensureIndexes` issues one `CreateOne` call whose index model is, for
every repository and every database, a single key `email_address` with value 1
(ascending), the name `email_address` and `Unique` set to false; it returns nil
when the driver reports success and otherwise an error that unwraps to the
driver's error, with message "failed to create index: " followed by its message. -/
theorem ensureIndexes_model_and_result (m : mongoRepo) (env : Env) :
    (m.ensureIndexes env).calls =
        [DriverCall.CreateOne m.UserCollection
          { Keys := [("email_address", 1)],
            Options := { Name := some "email_address", Unique := some false } }] ∧
      (env.CreateOne m.UserCollection
          { Keys := [("email_address", 1)],
            Options := { Name := some "email_address", Unique := some false } } = none →
        (m.ensureIndexes env).ret = none) ∧
      ∀ err : GoError,
        env.CreateOne m.UserCollection
          { Keys := [("email_address", 1)],
            Options := { Name := some "email_address", Unique := some false } } = some err →
        ∃ e : GoError, (m.ensureIndexes env).ret = some e ∧ e.Unwrap = some err ∧
          e.Error = "failed to create index: " ++ err.Error := by
  refine ⟨rfl, ?_, ?_⟩
  · intro h
    have h' : env.CreateOne m.UserCollection
        { Keys := [(emailAddressID, 1)],
          Options := (optionsIndex.SetName emailAddressID).SetUnique false } = none := h
    simp only [mongoRepo.ensureIndexes, h']
  · intro err h
    have h' : env.CreateOne m.UserCollection
        { Keys := [(emailAddressID, 1)],
          Options := (optionsIndex.SetName emailAddressID).SetUnique false } = some err := h
    refine ⟨Errorf "failed to create index: " err, ?_, rfl, rfl⟩
    simp only [mongoRepo.ensureIndexes, h']

theorem ensureIndexes_model_and_result_witness :
    (sampleRepo.ensureIndexes healthyEnv).ret = none ∧
      ∃ e : GoError,
        (sampleRepo.ensureIndexes
          (scriptedEnv (.ok sampleClient) (some (.driverError "not authorized")) none
            (.ok sampleUser) ⟨200⟩)).ret = some e ∧
        e.Unwrap = some (.driverError "not authorized") ∧
        e.Error = "failed to create index: " ++ (GoError.driverError "not authorized").Error :=
  ⟨(ensureIndexes_model_and_result sampleRepo healthyEnv).2.1 rfl,
   (ensureIndexes_model_and_result sampleRepo
      (scriptedEnv (.ok sampleClient) (some (.driverError "not authorized")) none
        (.ok sampleUser) ⟨200⟩)).2.2 (.driverError "not authorized") rfl⟩

/-- A connection failure makes `New` fail: it returns the error "db_error: "
wrapping the driver's error, next to a pointer to a zero-value `mongoRepo`. -/
theorem New_of_connect_failure (env : Env) (uri : String) (clock : Option Clock)
    (err : GoError) (hconn : env.mongoConnect uri = .error err) :
    (New env uri clock).ret =
      (some { client := none, clock := none }, some (Errorf "db_error: " err)) := by
  simp only [New, hconn]

/-- An index-creation failure after a successful connection makes `New` fail:
it returns a nil pointer and the error "failed to create index: " wrapping the
driver's error. -/
theorem New_of_index_failure (env : Env) (uri : String) (clock : Option Clock)
    (client : Client) (err : GoError) (hconn : env.mongoConnect uri = .ok client)
    (hidx : env.CreateOne (mongoRepo.UserCollection { client := some client, clock := clock })
      { Keys := [("email_address", 1)],
        Options := { Name := some "email_address", Unique := some false } } = some err) :
    (New env uri clock).ret = (none, some (Errorf "failed to create index: " err)) := by
  have hidx' : env.CreateOne
      (mongoRepo.UserCollection { client := some client, clock := clock })
      { Keys := [(emailAddressID, 1)],
        Options := (optionsIndex.SetName emailAddressID).SetUnique false } = some err := hidx
  simp only [New, hconn, mongoRepo.ensureIndexes, hidx']

/-- C7 (the code departs from the claim): when the driver cannot establish a
session, `New` returns a non-nil error together with a non-nil repository
pointer, which points to a zero-value `mongoRepo`; on the other failure path,
a failed index creation, the same function returns a nil pointer. -/
theorem New_connect_failure_pointer_not_nil :
    (New (scriptedEnv (.error (.driverError "no reachable servers")) none none
        (.ok sampleUser) ⟨200⟩) "mongodb://down:27017" (some { Now := ⟨100⟩ })).ret =
        (some { client := none, clock := none },
         some (.wrapError "db_error: no reachable servers"
           (.driverError "no reachable servers"))) ∧
      (New (scriptedEnv (.error (.driverError "no reachable servers")) none none
        (.ok sampleUser) ⟨200⟩) "mongodb://down:27017" (some { Now := ⟨100⟩ })).ret.2 ≠ none ∧
      (New (scriptedEnv (.error (.driverError "no reachable servers")) none none
        (.ok sampleUser) ⟨200⟩) "mongodb://down:27017" (some { Now := ⟨100⟩ })).ret.1 ≠ none ∧
      (New (scriptedEnv (.ok sampleClient) (some (.driverError "not authorized")) none
        (.ok sampleUser) ⟨200⟩) "mongodb://localhost:27017" (some { Now := ⟨100⟩ })).ret =
        (none,
         some (.wrapError "failed to create index: not authorized"
           (.driverError "not authorized"))) := by
  refine ⟨rfl, ?_, ?_, rfl⟩
  · intro h
    exact Option.noConfusion h
  · intro h
    exact Option.noConfusion h

end repository
